import Mathlib

/-!
Shallow embedding of the deterministic simulation kernel of Egregoria:
the in-game clock (`src/simulation/src/utils/time.rs`), the road model
(`src/scale/src/map_model/road.rs`) and the resource store
(`src/egregoria/src/lib.rs`).

Conventions: Rust `f32`/`f64` values are modelled as exact rationals `ℚ`,
`i32` as `ℤ` with Rust truncating division (`Int.tdiv`/`Int.tmod`), and
`u32` as `ℕ` with the numeric casts made explicit.  Rust panics are
modelled as `Option`/`Except` results (`none`/`.error` is the panic).
-/

namespace Egregoria

/-! ### Clock (src/simulation/src/utils/time.rs) -/

def SECONDS_PER_REALTIME_SECOND : ℕ := 15

def SECONDS_PER_HOUR : ℤ := 3600

def HOURS_PER_DAY : ℤ := 24

def SECONDS_PER_DAY : ℤ := SECONDS_PER_HOUR * HOURS_PER_DAY

/-- Rust `DayTime { day, hour, second }`, all Rust `i32` fields. -/
structure DayTime where
  day : ℤ
  hour : ℤ
  second : ℤ
deriving DecidableEq, Repr

/-- Rust `DayTime::new(seconds)`: Rust `i32` division and remainder truncate
toward zero, hence `Int.tdiv` / `Int.tmod`. -/
def DayTime.new (seconds : ℤ) : DayTime :=
  { day := seconds.tdiv SECONDS_PER_DAY
    hour := (seconds.tmod SECONDS_PER_DAY).tdiv SECONDS_PER_HOUR
    second := seconds.tmod SECONDS_PER_HOUR }

/-- Rust `DayTime::daysec`. -/
def DayTime.daysec (t : DayTime) : ℤ :=
  t.hour * SECONDS_PER_HOUR + t.second

/-- Rust `DayTime::gamesec`. -/
def DayTime.gamesec (t : DayTime) : ℤ :=
  t.day * SECONDS_PER_DAY + t.daysec

/-- The `<` of Rust `#[derive(PartialOrd, Ord)]` on `DayTime`:
lexicographic on `(day, hour, second)` in declaration order. -/
def DayTime.ltb (a b : DayTime) : Bool :=
  if a.day < b.day then true
  else if b.day < a.day then false
  else if a.hour < b.hour then true
  else if b.hour < a.hour then false
  else decide (a.second < b.second)

/-- Derived `<=` of the same total order. -/
def DayTime.leb (a b : DayTime) : Bool :=
  !DayTime.ltb b a

/-- Rust `RecTimeInterval` with its cached `overlap` flag. -/
structure RecTimeInterval where
  start_hour : ℤ
  start_second : ℤ
  end_hour : ℤ
  end_second : ℤ
  overlap : Bool
deriving DecidableEq, Repr

/-- Rust `RecTimeInterval::new`: computes the midnight-wrap flag from the
endpoint hours/seconds. -/
def RecTimeInterval.new (s e : ℤ × ℤ) : RecTimeInterval :=
  { start_hour := s.1
    start_second := s.2
    end_hour := e.1
    end_second := e.2
    overlap := decide (e.1 < s.1) || (decide (e.1 = s.1) && decide (e.2 < s.2)) }

/-- Rust `RecTimeInterval::dist_until(t)`. -/
def RecTimeInterval.dist_until (r : RecTimeInterval) (t : DayTime) : ℤ :=
  let start_dt : DayTime := ⟨t.day, r.start_hour, r.start_second⟩
  let end_dt : DayTime := ⟨t.day, r.end_hour, r.end_second⟩
  if !r.overlap then
    if DayTime.ltb t start_dt then
      start_dt.gamesec - t.gamesec
    else if DayTime.ltb end_dt t then
      let start_next : DayTime := ⟨t.day + 1, r.start_hour, r.start_second⟩
      start_next.gamesec - t.gamesec
    else 0
  else if DayTime.leb end_dt t && DayTime.leb t start_dt then
    start_dt.gamesec - t.gamesec
  else 0

/-- Rust `f64 as u32`: truncation toward zero, saturating at the `u32`
bounds. -/
def f64_as_u32 (x : ℚ) : ℕ :=
  if x ≤ 0 then 0 else min (⌊x⌋.toNat) (2 ^ 32 - 1)

/-- Rust `u32 as i32`: two's-complement wrap. -/
def u32_as_i32 (n : ℕ) : ℤ :=
  if n < 2 ^ 31 then (n : ℤ) else (n : ℤ) - 2 ^ 32

/-- Rust `GameTime { timestamp, realdelta, seconds, daytime }`. -/
structure GameTime where
  timestamp : ℚ
  realdelta : ℚ
  seconds : ℕ
  daytime : DayTime
deriving DecidableEq, Repr

/-- Rust `GameTime::new(delta, timestamp)` (the overflow warning is a log
side-effect only and does not alter the result). -/
def GameTime.new (delta : ℚ) (timestamp : ℚ) : GameTime :=
  let seconds := f64_as_u32 timestamp
  { timestamp := timestamp
    realdelta := delta
    seconds := seconds
    daytime := DayTime.new (u32_as_i32 seconds) }

/-- Rust `GameTime::tick(freq)`.  Rust `u32` division panics on `freq == 0`;
the theorems about `tick` assume `0 < freq`. -/
def GameTime.tick (g : GameTime) (freq : ℕ) : Bool :=
  let time_near : ℚ := ((g.seconds / freq) * freq : ℕ)
  decide (time_near < g.timestamp) &&
    decide (g.timestamp - (SECONDS_PER_REALTIME_SECOND : ℚ) * g.realdelta ≤ time_near)

/-- The claim's notion of `t` lying inside the (possibly
midnight-wrapping) recurring interval on `t`'s day, stated on
seconds-within-day; boundaries are included on the side where
`dist_until` yields `0`. -/
def recInside (sh ss eh es : ℤ) (t : DayTime) : Prop :=
  if sh * 3600 + ss ≤ eh * 3600 + es then
    sh * 3600 + ss ≤ t.daysec ∧ t.daysec ≤ eh * 3600 + es
  else
    sh * 3600 + ss ≤ t.daysec ∨ t.daysec < eh * 3600 + es

/-- The claim's next interval start, as seen from `t`: the same-day start
unless, in the non-wrapping case, `t` is past the interval end, in which
case it is the next-day start. -/
def recNextStart (sh ss eh es : ℤ) (t : DayTime) : DayTime :=
  if sh * 3600 + ss ≤ eh * 3600 + es ∧ eh * 3600 + es < t.daysec then
    ⟨t.day + 1, sh, ss⟩
  else
    ⟨t.day, sh, ss⟩

/-! ### Road model (src/scale/src/map_model/road.rs)

Slotmap keys (`IntersectionID`, `LaneID`) are modelled as naturals and
the slotmap tables as total functions from keys; `Vec2` has exact
rational coordinates. -/

abbrev IntersectionID := ℕ

abbrev LaneID := ℕ

abbrev Vec2 := ℚ × ℚ

abbrev PolyLine := List Vec2

/-- Vector negation, componentwise (Rust `-v` on `Vec2`). -/
def Vec2.neg (v : Vec2) : Vec2 := (-v.1, -v.2)

structure Intersection where
  pos : Vec2

abbrev Intersections := IntersectionID → Intersection

/-- Rust `LaneKind` lives in map_model sources not provided; only a lane's
width (derived from its kind) matters to the claims, so kinds are
abstract tags. -/
abbrev LaneKind := ℕ

/-- Rust `TrafficControl`, likewise an abstract tag here. -/
abbrev TrafficControl := ℕ

/-- Rust `Lane`, with its `f32` fields as rationals. -/
structure Lane where
  id : LaneID
  src : IntersectionID
  dst : IntersectionID
  src_dir : Vec2
  dst_dir : Vec2
  kind : LaneKind
  points : PolyLine
  width : ℚ
  inter_length : ℚ
  control : TrafficControl

abbrev Lanes := LaneID → Lane

structure ParkingSpot where
  parent : LaneID
  dist_along : ℚ

/-- Rust `Road` (the `lane_pattern` field is omitted: `LanePattern` is not
among the provided sources and no claim depends on it). -/
structure Road where
  id : ℕ
  src : IntersectionID
  dst : IntersectionID
  major_interpolation_points : PolyLine
  length : ℚ
  width : ℚ
  src_interface : ℚ
  dst_interface : ℚ
  lanes_forward : List LaneID
  lanes_backward : List LaneID
  parking_spots : List ParkingSpot

/-- Rust `Road::lanes_iter`: forward lanes reversed, then backward lanes. -/
def Road.lanes_iter (r : Road) : List LaneID :=
  r.lanes_forward.reverse ++ r.lanes_backward

/-- Rust `Road::interfaces_from`: the (mine, other) pair of stored interfaces
as seen from intersection `id`; the unrelated-intersection panic is
`none`. -/
def Road.interfaces_from (r : Road) (id : IntersectionID) : Option (ℚ × ℚ) :=
  if id = r.src then some (r.src_interface, r.dst_interface)
  else if id = r.dst then some (r.dst_interface, r.src_interface)
  else none

/-- Rust `Road::interface_from`: the effective (clamped) interface at `id`. -/
def Road.interface_from (r : Road) (id : IntersectionID) : Option ℚ :=
  (r.interfaces_from id).map fun p =>
    let l := r.length - 1
    let half := l * (1 / 2)
    if l < p.1 + p.2 then
      if half < p.1 ∧ half < p.2 then half
      else if half < p.1 then l - p.2
      else p.1
    else p.1

/-- Rust `Road::set_interface`. -/
def Road.set_interface (r : Road) (id : IntersectionID) (v : ℚ) : Option Road :=
  if id = r.src then some { r with src_interface := v }
  else if id = r.dst then some { r with dst_interface := v }
  else none

/-- Rust `Road::max_interface` (`f32::max` on non-NaN values is the
mathematical max). -/
def Road.max_interface (r : Road) (id : IntersectionID) (v : ℚ) : Option Road :=
  if id = r.src then some { r with src_interface := max r.src_interface v }
  else if id = r.dst then some { r with dst_interface := max r.dst_interface v }
  else none

/-- The two distinct panic sites of `Road::orientation_from`: the
`panic!` on an intersection not connected to the road, and the
`first_dir()`/`last_dir()` `.unwrap()` on a degenerate polyline. -/
inductive RoadFatal where
  | notConnected
  | dirUnwrap
deriving DecidableEq, Repr

/-- Rust `Road::orientation_from`.  The normalized segment directions
`PolyLine::first_dir`/`last_dir` come from geometry sources not provided
and are supplied as parameters returning `Option Vec2` (`none` for a
degenerate polyline, as in the Rust signatures); their `.unwrap()` panic
is the `.error .dirUnwrap` result and the unrelated-intersection panic
is `.error .notConnected`. -/
def Road.orientation_from (first_dir last_dir : PolyLine → Option Vec2)
    (r : Road) (id : IntersectionID) : Except RoadFatal Vec2 :=
  if id = r.src then
    match first_dir r.major_interpolation_points with
    | some d => .ok d
    | none => .error .dirUnwrap
  else if id = r.dst then
    match last_dir r.major_interpolation_points with
    | some d => .ok (Vec2.neg d)
    | none => .error .dirUnwrap
  else .error .notConnected

/-- Rust `Road::incoming_lanes_to`. -/
def Road.incoming_lanes_to (r : Road) (id : IntersectionID) : Option (List LaneID) :=
  if id = r.src then some r.lanes_backward
  else if id = r.dst then some r.lanes_forward
  else none

/-- Rust `Road::outgoing_lanes_from`. -/
def Road.outgoing_lanes_from (r : Road) (id : IntersectionID) : Option (List LaneID) :=
  if id = r.src then some r.lanes_forward
  else if id = r.dst then some r.lanes_backward
  else none

/-- Replace the first element of a list, if any (`first_mut`). -/
def setFirst {α : Type} : List α → α → List α
  | [], _ => []
  | _ :: xs, v => v :: xs

/-- Replace the last element of a list, if any (`last_mut`). -/
def setLast {α : Type} : List α → α → List α
  | [], _ => []
  | [_], v => [v]
  | x :: y :: xs, v => x :: setLast (y :: xs) v

/-- Modelled from the spec: `Lane::gen_pos` (map_model/lane.rs is not
among the provided sources).  Per the spec it re-derives the lane's
point sequence from the road's geometry and the accumulated lateral
offset `dist_from_bottom`, while a lane's width is derived from its kind
and is not modified; the concrete trace geometry is supplied as the
parameter `trace`. -/
def Lane.gen_pos (trace : Intersections → Road → ℚ → PolyLine)
    (l : Lane) (inters : Intersections) (r : Road) (dist_from_bottom : ℚ) : Lane :=
  { l with points := trace inters r dist_from_bottom }

/-- One iteration of the lane loop in `Road::gen_pos`: regenerate the
lane at `id`, then advance `dist_from_bottom` by its width. -/
def gen_pos_step (trace : Intersections → Road → ℚ → PolyLine)
    (inters : Intersections) (road : Road) (st : Lanes × ℚ) (id : LaneID) : Lanes × ℚ :=
  let l := Lane.gen_pos trace (st.1 id) inters road st.2
  (fun j => if j = id then l else st.1 j, st.2 + l.width)

/-- Rust `Road::gen_pos`: snap the polyline ends to the endpoint intersection
positions, recompute length and width, then regenerate every lane.
`PolyLine::length` (geometry sources not provided) is supplied as the
parameter `plen`; the `first_mut().unwrap()` panic on an empty polyline
is the `none` result. -/
def Road.gen_pos (trace : Intersections → Road → ℚ → PolyLine)
    (plen : PolyLine → ℚ) (r : Road) (inters : Intersections) (lanes : Lanes) :
    Option (Road × Lanes) :=
  match r.major_interpolation_points with
  | [] => none
  | _ :: _ =>
    let pts := setLast (setFirst r.major_interpolation_points (inters r.src).pos)
      (inters r.dst).pos
    let r1 := { r with major_interpolation_points := pts, length := plen pts }
    let r2 := { r1 with width := (r1.lanes_iter.map fun x => (lanes x).width).sum }
    let final := r2.lanes_iter.foldl (gen_pos_step trace inters r2) (lanes, 0)
    some (r2, final.1)

/-- The tie-break policy exactly as the claim words it, with the
one-endpoint clamp `length - other_interface` taken literally. -/
def interfaceClaimPolicy (len mi oi : ℚ) : ℚ :=
  let avail := len - 1
  if mi + oi ≤ avail then mi
  else if avail / 2 < mi ∧ avail / 2 < oi then avail / 2
  else if avail / 2 < mi then len - oi
  else mi

/-- The tie-break policy with the one-endpoint clamp equal to the
available length (`length - 1`) minus the other endpoint's requested
interface, restated from the spec's words. -/
def interfaceSpecPolicy (len mi oi : ℚ) : ℚ :=
  let avail := len - 1
  if mi + oi ≤ avail then mi
  else if avail / 2 < mi ∧ avail / 2 < oi then avail / 2
  else if avail / 2 < mi then avail - oi
  else mi

end Egregoria

/-! ### Resource store (src/egregoria/src/lib.rs)

legion's `Resources` is a singleton store keyed by resource type; type
keys are modelled as naturals and all stored values by one type `α`.
`get`/`get_mut` return `none` when the key was never inserted (legion's
contract as relied upon by `Egregoria`). -/

def Resources (α : Type) : Type := ℕ → Option α

def Resources.insert {α : Type} (r : Resources α) (k : ℕ) (v : α) : Resources α :=
  fun j => if j = k then some v else r j

def Resources.get {α : Type} (r : Resources α) (k : ℕ) : Option α := r k

def Resources.get_mut {α : Type} (r : Resources α) (k : ℕ) : Option α := r k

/-- The `Egregoria` state, restricted to the resource store the claims
are about. -/
structure Egregoria (α : Type) where
  resources : Resources α

/-- Rust `Egregoria::default()`: no resources inserted. -/
def Egregoria.new {α : Type} : Egregoria α :=
  ⟨fun _ => none⟩

/-- Rust `Egregoria::insert`. -/
def Egregoria.insert {α : Type} (g : Egregoria α) (k : ℕ) (v : α) : Egregoria α :=
  ⟨g.resources.insert k v⟩

/-- Rust `Egregoria::try_write`: the fallible accessor. -/
def Egregoria.try_write {α : Type} (g : Egregoria α) (k : ℕ) : Option α :=
  g.resources.get_mut k

/-- Rust `Egregoria::write`: `get_mut().unwrap()`; the panic on an absent
resource is the `.error` result. -/
def Egregoria.write {α : Type} (g : Egregoria α) (k : ℕ) : Except Unit α :=
  match g.resources.get_mut k with
  | some v => .ok v
  | none => .error ()

/-- Rust `Egregoria::read`: `get().unwrap()`; the panic on an absent resource
is the `.error` result. -/
def Egregoria.read {α : Type} (g : Egregoria α) (k : ℕ) : Except Unit α :=
  match g.resources.get k with
  | some v => .ok v
  | none => .error ()

/-- A simulation instance built by inserting the listed resources, in
order, into a fresh instance. -/
def Egregoria.ofInserts {α : Type} (ops : List (ℕ × α)) : Egregoria α :=
  ops.foldl (fun g p => g.insert p.1 p.2) Egregoria.new

namespace Egregoria

/-- The derived lexicographic `<` on `DayTime`, in propositional form. -/
theorem DayTime.ltb_eq_true_iff (a b : DayTime) :
    (DayTime.ltb a b = true) ↔
      a.day < b.day ∨ (a.day = b.day ∧
        (a.hour < b.hour ∨ (a.hour = b.hour ∧ a.second < b.second))) := by
  unfold DayTime.ltb
  split_ifs with h1 h2 h3 h4 <;> simp <;> omega

/-- The derived lexicographic `<=` on `DayTime`, in propositional form. -/
theorem DayTime.leb_eq_true_iff (a b : DayTime) :
    (DayTime.leb a b = true) ↔
      ¬ (b.day < a.day ∨ (b.day = a.day ∧
        (b.hour < a.hour ∨ (b.hour = a.hour ∧ b.second < a.second)))) := by
  rw [DayTime.leb, Bool.not_eq_true', ← Bool.not_eq_true, not_iff_not,
    DayTime.ltb_eq_true_iff]

/-- C5: `DayTime::new(seconds).gamesec() == seconds` for all non-negative
`seconds` (the day/hour/second decomposition round-trips). -/
theorem daytime_new_gamesec_roundtrip (s : ℤ) (hs : 0 ≤ s) :
    (DayTime.new s).gamesec = s := by
  have h86400 : (0 : ℤ) ≤ 86400 := by norm_num
  have h3600 : (0 : ℤ) ≤ 3600 := by norm_num
  have hmodnn : 0 ≤ s.tmod 86400 := by
    rw [Int.tmod_eq_emod hs h86400]
    exact Int.emod_nonneg s (by norm_num)
  simp only [DayTime.new, DayTime.gamesec, DayTime.daysec, SECONDS_PER_DAY,
    SECONDS_PER_HOUR, HOURS_PER_DAY]
  norm_num
  rw [Int.tdiv_eq_ediv hs h86400, Int.tmod_eq_emod hs h86400,
    Int.tmod_eq_emod hs h3600, Int.tdiv_eq_ediv (Int.emod_nonneg s (by norm_num)) h3600]
  omega

/-- Witness for C5 at `seconds = 100000`. -/
theorem daytime_new_gamesec_roundtrip_w :
    (DayTime.new 100000).gamesec = 100000 :=
  daytime_new_gamesec_roundtrip 100000 (by norm_num)

/-- C6 counterexample: at the negative timestamp `-2`, the `f64 as u32`
cast saturates to `0`, so the stored daytime is `DayTime::new(0)` while
`DayTime::new(floor(-2)) = ⟨0, 0, -2⟩`; the claimed equality fails for
arbitrary timestamps. -/
theorem gametime_new_daytime_cex :
    (GameTime.new 0 (-2)).daytime ≠ DayTime.new ⌊(-2 : ℚ)⌋ := by
  have h : ⌊(-2 : ℚ)⌋ = -2 := by norm_num
  rw [h]
  decide

/-- C6 (amended): for every delta and every timestamp in `[0, 2^31)` —
the range on which the `f64 as u32` and `u32 as i32` casts are lossless —
the daytime stored by `GameTime::new` is exactly `DayTime::new(floor(timestamp))`. -/
theorem gametime_new_daytime (delta ts : ℚ) (h0 : 0 ≤ ts) (h1 : ts < 2 ^ 31) :
    (GameTime.new delta ts).daytime = DayTime.new ⌊ts⌋ := by
  have hfl0 : 0 ≤ ⌊ts⌋ := Int.floor_nonneg.mpr h0
  have hfllt : ⌊ts⌋ < 2 ^ 31 := by
    have hle := Int.floor_le ts
    have : (⌊ts⌋ : ℚ) < 2 ^ 31 := lt_of_le_of_lt hle h1
    exact_mod_cast this
  simp only [GameTime.new, f64_as_u32, u32_as_i32]
  by_cases hz : ts ≤ 0
  · have hts : ts = 0 := le_antisymm hz h0
    subst hts
    norm_num
  · simp only [if_neg hz]
    have htn : (⌊ts⌋.toNat : ℤ) = ⌊ts⌋ := Int.toNat_of_nonneg hfl0
    have hlt31 : ⌊ts⌋.toNat < 2 ^ 31 := by omega
    have hmin : min (⌊ts⌋.toNat) (2 ^ 32 - 1) = ⌊ts⌋.toNat := by
      apply min_eq_left
      omega
    rw [hmin, if_pos hlt31, htn]

/-- Witness for C6 (amended) at `delta = 1`, `timestamp = 200000`. -/
theorem gametime_new_daytime_w :
    (GameTime.new 1 200000).daytime = DayTime.new ⌊(200000 : ℚ)⌋ :=
  gametime_new_daytime 1 200000 (by norm_num) (by norm_num)

/-- C3: for `0 < freq`, `tick(freq)` returns true exactly when the latest
multiple of `freq` at or below the whole-second count `seconds` has been
crossed by the most recent advance: the previous timestamp
(current timestamp minus the game-seconds delta that was applied,
`SECONDS_PER_REALTIME_SECOND * realdelta`) is at or before that multiple
and the current timestamp is strictly past it.  An advance that crosses
no such boundary yields false. -/
theorem gametime_tick_boundary (g : GameTime) (freq : ℕ) (hf : 0 < freq) :
    g.tick freq = true ↔
      ∃ k : ℕ, k * freq ≤ g.seconds ∧ g.seconds < (k + 1) * freq ∧
        g.timestamp - (SECONDS_PER_REALTIME_SECOND : ℚ) * g.realdelta ≤ ((k * freq : ℕ) : ℚ) ∧
        ((k * freq : ℕ) : ℚ) < g.timestamp := by
  unfold GameTime.tick
  simp only [Bool.and_eq_true, decide_eq_true_eq]
  constructor
  · rintro ⟨hlt, hle⟩
    refine ⟨g.seconds / freq, Nat.div_mul_le_self _ _, ?_, hle, hlt⟩
    calc g.seconds
        = freq * (g.seconds / freq) + g.seconds % freq := (Nat.div_add_mod _ _).symm
      _ < freq * (g.seconds / freq) + freq := Nat.add_lt_add_left (Nat.mod_lt _ hf) _
      _ = (g.seconds / freq + 1) * freq := by ring
  · rintro ⟨k, hlo, hhi, hle, hlt⟩
    have hdiv : g.seconds / freq = k := Nat.div_eq_of_lt_le hlo hhi
    rw [hdiv]
    exact ⟨hlt, hle⟩

/-- Witness for C3: with `freq = 4`, `timestamp = 19/2` and
`realdelta = 1/5` (so the applied game delta is `3` and the previous
timestamp `13/2` is at or before the boundary `8 < 19/2`), `tick` fires. -/
theorem gametime_tick_boundary_w :
    (GameTime.new (1 / 5) (19 / 2)).tick 4 = true := by
  apply (gametime_tick_boundary (GameTime.new (1 / 5) (19 / 2)) 4 (by norm_num)).mpr
  refine ⟨2, ?_, ?_, ?_, ?_⟩ <;>
    norm_num [GameTime.new, f64_as_u32, u32_as_i32, Int.toNat_ofNat,
      SECONDS_PER_REALTIME_SECOND]

/-- C4 counterexample: the claim quantifies over every `DayTime`, but for
a day-time with an out-of-range `second` field (here 09:00:00 plus 7200
"seconds of the hour", i.e. 11:00:00 in game seconds, inside the
10:00–12:00 interval) `dist_until` is negative, contradicting both the
"0 inside" and the "non-negative otherwise" parts of the claim. -/
theorem rec_dist_until_cex :
    RecTimeInterval.dist_until (RecTimeInterval.new (10, 0) (12, 0)) ⟨0, 9, 7200⟩ < 0 := by
  norm_num [RecTimeInterval.dist_until, RecTimeInterval.new, DayTime.ltb,
    DayTime.leb, DayTime.gamesec, DayTime.daysec, SECONDS_PER_DAY,
    SECONDS_PER_HOUR, HOURS_PER_DAY]

/-- C4 (amended): for recurring intervals built by `RecTimeInterval::new`
from in-range endpoint hours/seconds and for every `DayTime` whose hour
and second fields are in range, `dist_until(t)` is `0` when `t` falls
inside the (possibly midnight-wrapping) interval for `t`'s day and is
otherwise the non-negative number of game seconds until the interval's
next start (same-day start, or next-day start when `t` is past the end
in the non-wrapping case). -/
theorem rec_dist_until_spec (sh ss eh es : ℤ) (t : DayTime)
    (hsh : 0 ≤ sh) (hsh24 : sh < 24) (hss : 0 ≤ ss) (hss36 : ss < 3600)
    (heh : 0 ≤ eh) (heh24 : eh < 24) (hes : 0 ≤ es) (hes36 : es < 3600)
    (hth : 0 ≤ t.hour) (hth24 : t.hour < 24)
    (hts : 0 ≤ t.second) (hts36 : t.second < 3600) :
    0 ≤ (RecTimeInterval.new (sh, ss) (eh, es)).dist_until t ∧
    (recInside sh ss eh es t →
      (RecTimeInterval.new (sh, ss) (eh, es)).dist_until t = 0) ∧
    (¬ recInside sh ss eh es t →
      (RecTimeInterval.new (sh, ss) (eh, es)).dist_until t =
        (recNextStart sh ss eh es t).gamesec - t.gamesec) := by
  have hov : ((RecTimeInterval.new (sh, ss) (eh, es)).overlap = true) ↔
      eh * 3600 + es < sh * 3600 + ss := by
    simp only [RecTimeInterval.new, Bool.or_eq_true, Bool.and_eq_true,
      decide_eq_true_eq]
    omega
  unfold RecTimeInterval.dist_until recInside recNextStart
  simp only [RecTimeInterval.new, DayTime.gamesec, DayTime.daysec,
    SECONDS_PER_DAY, SECONDS_PER_HOUR, HOURS_PER_DAY, Bool.not_eq_true',
    Bool.and_eq_true, DayTime.ltb_eq_true_iff, DayTime.leb_eq_true_iff] at hov ⊢
  split_ifs at hov ⊢ <;> simp_all <;> omega

/-- C1: for every road between two distinct endpoint intersections, the
effective interfaces returned by `interface_from` at `src` and `dst` sum
to at most `length - 1`. -/
theorem interface_from_clamping (r : Road) (hne : r.src ≠ r.dst) (a b : ℚ)
    (ha : r.interface_from r.src = some a) (hb : r.interface_from r.dst = some b) :
    a + b ≤ r.length - 1 := by
  have h1 : r.interfaces_from r.src = some (r.src_interface, r.dst_interface) := by
    simp [Road.interfaces_from]
  have h2 : r.interfaces_from r.dst = some (r.dst_interface, r.src_interface) := by
    simp [Road.interfaces_from, Ne.symm hne]
  rw [Road.interface_from, h1] at ha
  rw [Road.interface_from, h2] at hb
  simp only [Option.map_some', Option.some.injEq] at ha hb
  split_ifs at ha hb <;> subst ha <;> subst hb <;> linarith

/-- Witness for C1: a road of length 10 with both requested interfaces 9
gets both endpoints clamped to half the available length, `9/2`. -/
theorem interface_from_clamping_w :
    (9 : ℚ) / 2 + 9 / 2 ≤ (⟨0, 0, 1, [], 10, 1, 9, 9, [], [], []⟩ : Road).length - 1 :=
  interface_from_clamping ⟨0, 0, 1, [], 10, 1, 9, 9, [], [], []⟩ (by decide) (9 / 2) (9 / 2)
    (by norm_num [Road.interface_from, Road.interfaces_from])
    (by norm_num [Road.interface_from, Road.interfaces_from])

/-- C2 counterexample: a road of length 11 with requested interfaces 10
and 2; the code clamps the src interface to `(length - 1) - 2 = 8`, while
the claim's literal policy `length - other_interface` yields `9`. -/
theorem interface_from_policy_cex :
    Road.interface_from ⟨0, 0, 1, [], 11, 1, 10, 2, [], [], []⟩ 0 ≠
      some (interfaceClaimPolicy 11 10 2) := by
  norm_num [Road.interface_from, Road.interfaces_from, interfaceClaimPolicy]

/-- C2 (amended): for every road and connected endpoint, `interface_from`
implements exactly the claimed tie-break policy, with the one-endpoint
clamp equal to the available length (`length - 1`) minus the other
endpoint's requested interface. -/
theorem interface_from_policy (r : Road) (id : IntersectionID) (mi oi : ℚ)
    (h : r.interfaces_from id = some (mi, oi)) :
    r.interface_from id = some (interfaceSpecPolicy r.length mi oi) := by
  rw [Road.interface_from, h]
  simp only [Option.map_some', Option.some.injEq, interfaceSpecPolicy]
  have hhalf : (r.length - 1) * (1 / 2) = (r.length - 1) / 2 := by ring
  simp only [hhalf]
  split_ifs <;> first | rfl | linarith

/-- Witness for C2 (amended) on the same concrete road. -/
theorem interface_from_policy_w :
    Road.interface_from ⟨0, 0, 1, [], 11, 1, 10, 2, [], [], []⟩ 0 =
      some (interfaceSpecPolicy 11 10 2) :=
  interface_from_policy ⟨0, 0, 1, [], 11, 1, 10, 2, [], [], []⟩ 0 10 2
    (by simp [Road.interfaces_from])

/-- Witness for C4 (amended): the wrapping interval 22:00–05:00 of the
spec, sampled at 23:00 on day 3, yields distance `0`. -/
theorem rec_dist_until_spec_w :
    (RecTimeInterval.new (22, 0) (5, 0)).dist_until ⟨3, 23, 0⟩ = 0 :=
  (rec_dist_until_spec 22 0 5 0 ⟨3, 23, 0⟩
      (by norm_num) (by norm_num) (by norm_num) (by norm_num)
      (by norm_num) (by norm_num) (by norm_num) (by norm_num)
      (by norm_num) (by norm_num) (by norm_num) (by norm_num)).2.1
    (by norm_num [recInside, DayTime.daysec, SECONDS_PER_HOUR])

/-- C8: at an intersection identity equal to the road's src or dst, none
of the four connectivity-dispatching queries reaches its
unrelated-intersection fatal branch (`interface_from`,
`incoming_lanes_to` and `outgoing_lanes_from` succeed outright;
`orientation_from` can only still fail through the separate
direction-unwrap panic); at any identity that is neither src nor dst,
every one of the four queries is fatal rather than recoverable. -/
theorem road_queries_connectivity (fd ld : PolyLine → Option Vec2)
    (r : Road) (id : IntersectionID) :
    ((id = r.src ∨ id = r.dst) →
      ((r.interface_from id).isSome ∧
        Road.orientation_from fd ld r id ≠ .error .notConnected ∧
        (r.incoming_lanes_to id).isSome ∧ (r.outgoing_lanes_from id).isSome)) ∧
    (¬(id = r.src ∨ id = r.dst) →
      (r.interface_from id = none ∧
        Road.orientation_from fd ld r id = .error .notConnected ∧
        r.incoming_lanes_to id = none ∧ r.outgoing_lanes_from id = none)) := by
  constructor
  · intro h
    by_cases h1 : id = r.src
    · unfold Road.interface_from Road.interfaces_from Road.orientation_from
        Road.incoming_lanes_to Road.outgoing_lanes_from
      simp only [if_pos h1]
      refine ⟨by simp, ?_, by simp, by simp⟩
      cases fd r.major_interpolation_points <;> simp
    · have h2 : id = r.dst := h.resolve_left h1
      unfold Road.interface_from Road.interfaces_from Road.orientation_from
        Road.incoming_lanes_to Road.outgoing_lanes_from
      simp only [if_neg h1, if_pos h2]
      refine ⟨by simp, ?_, by simp, by simp⟩
      cases ld r.major_interpolation_points <;> simp
  · intro h
    have h1 : ¬ id = r.src := fun hc => h (Or.inl hc)
    have h2 : ¬ id = r.dst := fun hc => h (Or.inr hc)
    unfold Road.interface_from Road.interfaces_from Road.orientation_from
      Road.incoming_lanes_to Road.outgoing_lanes_from
    simp [h1, h2]

/-- Witness for C8: on a concrete road, the queries succeed at the
connected endpoint 0 and are fatal at the unrelated identity 5. -/
theorem road_queries_connectivity_w :
    (Road.interface_from ⟨0, 0, 1, [], 10, 1, 9, 9, [], [], []⟩ 0).isSome ∧
    Road.interface_from ⟨0, 0, 1, [], 10, 1, 9, 9, [], [], []⟩ 5 = none ∧
    Road.orientation_from (fun _ => some ((1 : ℚ), (0 : ℚ))) (fun _ => some ((1 : ℚ), (0 : ℚ)))
      ⟨0, 0, 1, [], 10, 1, 9, 9, [], [], []⟩ 5 = .error .notConnected ∧
    Road.outgoing_lanes_from ⟨0, 0, 1, [], 10, 1, 9, 9, [], [], []⟩ 5 = none :=
  ⟨((road_queries_connectivity (fun _ => some ((1 : ℚ), (0 : ℚ)))
      (fun _ => some ((1 : ℚ), (0 : ℚ)))
      ⟨0, 0, 1, [], 10, 1, 9, 9, [], [], []⟩ 0).1 (Or.inl rfl)).1,
   ((road_queries_connectivity (fun _ => some ((1 : ℚ), (0 : ℚ)))
      (fun _ => some ((1 : ℚ), (0 : ℚ)))
      ⟨0, 0, 1, [], 10, 1, 9, 9, [], [], []⟩ 5).2 (by decide)).1,
   ((road_queries_connectivity (fun _ => some ((1 : ℚ), (0 : ℚ)))
      (fun _ => some ((1 : ℚ), (0 : ℚ)))
      ⟨0, 0, 1, [], 10, 1, 9, 9, [], [], []⟩ 5).2 (by decide)).2.1,
   ((road_queries_connectivity (fun _ => some ((1 : ℚ), (0 : ℚ)))
      (fun _ => some ((1 : ℚ), (0 : ℚ)))
      ⟨0, 0, 1, [], 10, 1, 9, 9, [], [], []⟩ 5).2 (by decide)).2.2.2⟩

/-- C10: `max_interface` at a connected endpoint raises that endpoint's
stored interface to the max of its previous value and `v` (so neither
stored interface ever decreases) and leaves the other endpoint's stored
interface unchanged. -/
theorem max_interface_spec (r : Road) (id : IntersectionID) (v : ℚ)
    (h : id = r.src ∨ id = r.dst) :
    ∃ r2, r.max_interface id v = some r2 ∧
      r.src_interface ≤ r2.src_interface ∧ r.dst_interface ≤ r2.dst_interface ∧
      (if id = r.src then
        r2.src_interface = max r.src_interface v ∧ r2.dst_interface = r.dst_interface
      else
        r2.dst_interface = max r.dst_interface v ∧ r2.src_interface = r.src_interface) := by
  by_cases h1 : id = r.src
  · exact ⟨{ r with src_interface := max r.src_interface v },
      by rw [Road.max_interface, if_pos h1],
      le_max_left _ _, le_refl _,
      by rw [if_pos h1]; exact ⟨rfl, rfl⟩⟩
  · have h2 : id = r.dst := h.resolve_left h1
    exact ⟨{ r with dst_interface := max r.dst_interface v },
      by rw [Road.max_interface, if_neg h1, if_pos h2],
      le_refl _, le_max_left _ _,
      by rw [if_neg h1]; exact ⟨rfl, rfl⟩⟩

/-- Witness for C10: raising the src interface of a concrete road from 9
to `max 9 12 = 12` while the dst interface stays 9. -/
theorem max_interface_spec_w :
    ∃ r2, Road.max_interface ⟨0, 0, 1, [], 10, 1, 9, 9, [], [], []⟩ 0 12 = some r2 ∧
      (9 : ℚ) ≤ r2.src_interface ∧ (9 : ℚ) ≤ r2.dst_interface ∧
      (if 0 = (0 : ℕ) then
        r2.src_interface = max 9 12 ∧ r2.dst_interface = 9
      else
        r2.dst_interface = max 9 12 ∧ r2.src_interface = 9) :=
  max_interface_spec ⟨0, 0, 1, [], 10, 1, 9, 9, [], [], []⟩ 0 12 (Or.inl rfl)

/-- The lane loop of `Road::gen_pos` never changes any lane's width:
`Lane::gen_pos` only regenerates the point sequence. -/
theorem gen_pos_fold_width (trace : Intersections → Road → ℚ → PolyLine)
    (inters : Intersections) (road : Road) :
    ∀ (l : List LaneID) (st : Lanes × ℚ) (j : LaneID),
      (((l.foldl (gen_pos_step trace inters road) st)).1 j).width = (st.1 j).width := by
  intro l
  induction l with
  | nil => intro st j; rfl
  | cons a tl ih =>
    intro st j
    rw [List.foldl_cons, ih]
    simp only [gen_pos_step, Lane.gen_pos]
    by_cases hj : j = a <;> simp [hj]

/-- C7: whenever `gen_pos` succeeds, the regenerated road's width equals
the sum of the widths of all its lanes (reversed forward list then
backward list) as stored in the regenerated lane table. -/
theorem gen_pos_width (trace : Intersections → Road → ℚ → PolyLine)
    (plen : PolyLine → ℚ) (r : Road) (inters : Intersections) (lanes : Lanes)
    (r2 : Road) (lanes2 : Lanes)
    (h : Road.gen_pos trace plen r inters lanes = some (r2, lanes2)) :
    r2.width = (r2.lanes_iter.map fun x => (lanes2 x).width).sum := by
  unfold Road.gen_pos at h
  rcases hp : r.major_interpolation_points with _ | ⟨p0, prest⟩
  · rw [hp] at h
    exact absurd h (by simp)
  · rw [hp] at h
    simp only [Option.some.injEq, Prod.mk.injEq] at h
    obtain ⟨hr2, hlanes2⟩ := h
    subst hr2
    subst hlanes2
    simp only [Road.lanes_iter]
    congr 1
    refine List.map_congr_left ?_
    intro x _
    rw [gen_pos_fold_width]

/-- Witness for C7 on a concrete zero-lane road (the fold over an empty
lane list leaves the lane table untouched and the width sum is 0). -/
theorem gen_pos_width_w :
    ({ id := 0, src := 0, dst := 1,
       major_interpolation_points := [((0 : ℚ), (0 : ℚ)), ((0 : ℚ), (0 : ℚ))],
       length := 0, width := 0, src_interface := 9, dst_interface := 9,
       lanes_forward := [], lanes_backward := [], parking_spots := [] } : Road).width =
      ((({ id := 0, src := 0, dst := 1,
           major_interpolation_points := [((0 : ℚ), (0 : ℚ)), ((0 : ℚ), (0 : ℚ))],
           length := 0, width := 0, src_interface := 9, dst_interface := 9,
           lanes_forward := [], lanes_backward := [], parking_spots := [] } : Road).lanes_iter).map
        fun x => ((fun _ => ⟨0, 0, 1, ((0 : ℚ), (0 : ℚ)), ((0 : ℚ), (0 : ℚ)), 0, [], 1, 0, 0⟩ : Lanes) x).width).sum :=
  gen_pos_width (fun _ _ _ => []) (fun _ => 0)
    ⟨0, 0, 1, [((0 : ℚ), (0 : ℚ)), ((1 : ℚ), (0 : ℚ))], 10, 1, 9, 9, [], [], []⟩
    (fun _ => ⟨((0 : ℚ), (0 : ℚ))⟩)
    (fun _ => ⟨0, 0, 1, ((0 : ℚ), (0 : ℚ)), ((0 : ℚ), (0 : ℚ)), 0, [], 1, 0, 0⟩)
    { id := 0, src := 0, dst := 1,
      major_interpolation_points := [((0 : ℚ), (0 : ℚ)), ((0 : ℚ), (0 : ℚ))],
      length := 0, width := 0, src_interface := 9, dst_interface := 9,
      lanes_forward := [], lanes_backward := [], parking_spots := [] }
    (fun _ => ⟨0, 0, 1, ((0 : ℚ), (0 : ℚ)), ((0 : ℚ), (0 : ℚ)), 0, [], 1, 0, 0⟩)
    rfl

/-- Inserting resources never touches other type keys: a key not among
the inserted ones still maps to whatever it mapped to before. -/
theorem foldl_insert_not_mem {α : Type} (ops : List (ℕ × α)) :
    ∀ (g : Egregoria α) (T : ℕ), T ∉ ops.map Prod.fst →
      (ops.foldl (fun g2 p => g2.insert p.1 p.2) g).resources T = g.resources T := by
  induction ops with
  | nil => intro g T _; rfl
  | cons a tl ih =>
    intro g T hT
    simp only [List.map_cons, List.mem_cons, not_or] at hT
    rw [List.foldl_cons, ih _ T hT.2]
    simp [Egregoria.insert, Resources.insert, hT.1]

/-- A key among the inserted ones ends up mapped to some value. -/
theorem foldl_insert_mem {α : Type} (ops : List (ℕ × α)) :
    ∀ (g : Egregoria α) (T : ℕ), T ∈ ops.map Prod.fst →
      ∃ v, (ops.foldl (fun g2 p => g2.insert p.1 p.2) g).resources T = some v := by
  induction ops with
  | nil => intro g T hT; simp at hT
  | cons a tl ih =>
    intro g T hT
    rw [List.foldl_cons]
    by_cases htl : T ∈ tl.map Prod.fst
    · exact ih _ T htl
    · have hTa : T = a.1 := by
        simp only [List.map_cons, List.mem_cons] at hT
        exact hT.resolve_right htl
      refine ⟨a.2, ?_⟩
      rw [foldl_insert_not_mem tl _ T htl]
      simp [Egregoria.insert, Resources.insert, hTa]

/-- C9: for an instance built by any sequence of resource insertions, a
resource type that was never inserted makes the unconditional accessors
`read` and `write` fail fatally while `try_write` returns `none`; an
inserted type makes all three succeed. -/
theorem resource_absence_spec (ops : List (ℕ × ℕ)) (T : ℕ) :
    ((T ∉ ops.map Prod.fst) →
      (Egregoria.ofInserts ops).read T = .error () ∧
      (Egregoria.ofInserts ops).write T = .error () ∧
      (Egregoria.ofInserts ops).try_write T = none) ∧
    ((T ∈ ops.map Prod.fst) →
      (∃ v, (Egregoria.ofInserts ops).read T = .ok v) ∧
      (∃ v, (Egregoria.ofInserts ops).write T = .ok v) ∧
      (∃ v, (Egregoria.ofInserts ops).try_write T = some v)) := by
  constructor
  · intro hT
    have hnone : (Egregoria.ofInserts ops).resources T = none :=
      foldl_insert_not_mem ops Egregoria.new T hT
    refine ⟨?_, ?_, ?_⟩ <;>
      simp [Egregoria.read, Egregoria.write, Egregoria.try_write,
        Resources.get, Resources.get_mut, hnone]
  · intro hT
    obtain ⟨v, hv⟩ := foldl_insert_mem ops Egregoria.new T hT
    have hv2 : (Egregoria.ofInserts ops).resources T = some v := hv
    refine ⟨⟨v, ?_⟩, ⟨v, ?_⟩, ⟨v, ?_⟩⟩ <;>
      simp [Egregoria.read, Egregoria.write, Egregoria.try_write,
        Resources.get, Resources.get_mut, hv2]

/-- Witness for C9: in an instance holding only resource type 1, the
fallible accessor on the absent type 2 yields `none`, the fatal accessors
on type 2 fail, and `read` on the present type 1 succeeds. -/
theorem resource_absence_spec_w :
    (Egregoria.ofInserts [(1, 7)]).try_write 2 = none ∧
    (Egregoria.ofInserts [(1, 7)]).write 2 = .error () ∧
    (∃ v, (Egregoria.ofInserts [(1, 7)]).read 1 = Except.ok v) :=
  ⟨((resource_absence_spec [(1, 7)] 2).1 (by decide)).2.2,
   ((resource_absence_spec [(1, 7)] 2).1 (by decide)).2.1,
   ((resource_absence_spec [(1, 7)] 1).2 (by decide)).1⟩

end Egregoria
